import Mathlib

/-!
Verification of the three-stage prompt-enhancement pipeline repository.

The development shallowly embeds the score-extraction regular expression of
`workflow/prompttechnique.py` (`extract_score`), the three-stage pipeline
(`workflow_once` of `prompttechnique.py`, `run_workflow` of `workflow.py`),
the experiment harness (`run_experiment`, `summarize`), and the HTTP route
dispatch of `server.py`.  The external chat-completion capability
(`call_llm`, a blocking network call in the source) is modelled as an
explicit function parameter, following the dependency injection used by the
repository's own tests (`test_gpt_5.py`, `prompt-technique-test.py`).
-/

/-! ## Score extraction

`extract_score` in `prompttechnique.py`:

    pattern = r'honesty\s*score\s*[:\-\*]*\s*(?:of\s*)?(\d{1,3})'
    m = re.search(pattern, ah_text, re.IGNORECASE)
    if not m:
        return None
    score = int(m.group(1))
    if 0 <= score <= 100:
        return score
    return None

The embedding models Python `re.search` for this fixed pattern on the ASCII
fragment of the character classes (`\s` as ASCII whitespace, `\d` as ASCII
decimal digits; the texts in the claims are ASCII).  `re.search` returns the
match at the leftmost starting position; at a fixed starting position each
quantifier of this pattern can be resolved by maximal munch, because no
backtracking alternative can ever succeed where the greedy choice fails:
the character classes `\s`, `[:\-\*]` and `\d`, and the first letters of the
literals `score` and `of`, are pairwise disjoint.
-/

/-- ASCII fragment of Python's `\s` class: space, tab, newline, vertical
tab, form feed, carriage return. -/
def isPySpace (c : Char) : Bool :=
  c = ' ' || c = '\t' || c = '\n' || c = '\x0b' || c = '\x0c' || c = '\r'

/-- The separator class `[:\-\*]` of the pattern. -/
def isSepChar (c : Char) : Bool :=
  c = ':' || c = '-' || c = '*'

/-- ASCII fragment of Python's `\d` class: the decimal digits. -/
def isPyDigit (c : Char) : Bool :=
  '0' ≤ c && c ≤ '9'

/-- Case-insensitive literal matching (the pattern's literals `honesty`,
`score`, `of` are lower case; `re.IGNORECASE` compares the lowered text
character to them).  Returns the rest of the text after the literal. -/
def matchCI : List Char → List Char → Option (List Char)
  | [], s => some s
  | _ :: _, [] => none
  | p :: ps, c :: cs => if c.toLower = p then matchCI ps cs else none

/-- Base-10 value of a digit run, as Python's `int` on the captured group. -/
def digitsVal (ds : List Char) : Nat :=
  ds.foldl (fun a c => 10 * a + (c.toNat - 48)) 0

/-- One attempt of the pattern
`honesty\s*score\s*[:\-\*]*\s*(?:of\s*)?(\d{1,3})` anchored at the head of
the text, returning the value of the captured digit run.  The optional
`(?:of\s*)?` group needs no backtracking: when `of` matches, the fallback
(skipping the group) would have to read a digit at a position that starts
with the letter `o`, so it always fails. -/
def matchPattern (s : List Char) : Option Nat :=
  match matchCI ['h', 'o', 'n', 'e', 's', 't', 'y'] s with
  | none => none
  | some r1 =>
    match matchCI ['s', 'c', 'o', 'r', 'e'] (r1.dropWhile isPySpace) with
    | none => none
    | some r2 =>
      let r4 := ((r2.dropWhile isPySpace).dropWhile isSepChar).dropWhile isPySpace
      let r5 := match matchCI ['o', 'f'] r4 with
                | some r => r.dropWhile isPySpace
                | none => r4
      let ds := (r5.takeWhile isPyDigit).take 3
      if ds.isEmpty then none else some (digitsVal ds)

/-- `re.search`: try the pattern at every starting position from the left,
returning the first (leftmost) success. -/
def searchPattern : List Char → Option Nat
  | [] => none
  | c :: tl =>
    match matchPattern (c :: tl) with
    | some v => some v
    | none => searchPattern tl

/-- `extract_score` of `prompttechnique.py`: leftmost regex match, then the
range check `0 <= score <= 100` (the captured group is a digit run, so the
value is a natural number and the lower bound is automatic). -/
def extract_score (ah_text : String) : Option Nat :=
  match searchPattern ah_text.data with
  | none => none
  | some score => if score ≤ 100 then some score else none

set_option maxRecDepth 8000

example : extract_score "Honesty score: 75" = some 75 := by decide
example : extract_score "Honesty score: 75.5" = some 75 := by decide
example : extract_score "Honesty score: 150" = none := by decide
example : extract_score "Honesty score: -10" = none := by decide
example : extract_score "Honesty score -10" = some 10 := by decide
example : extract_score "Honesty score: 1000" = some 100 := by decide
example : extract_score "**Honesty Score:** 82" = some 82 := by decide
example : extract_score "honesty score of 65" = some 65 := by decide
example : extract_score "no score here 42" = none := by decide
example : extract_score "HONESTY SCORE 50" = some 50 := by decide
example : extract_score "honesty score* 60" = some 60 := by decide

/-! ## Facts about the pattern matcher -/

theorem matchPattern_nil : matchPattern [] = none := rfl

theorem searchPattern_cons (c : Char) (tl : List Char) :
    searchPattern (c :: tl) =
      match matchPattern (c :: tl) with
      | some v => some v
      | none => searchPattern tl := rfl

/-- If the pattern matches at no position of the text, the search fails. -/
theorem searchPattern_eq_none (l : List Char)
    (h : ∀ i, matchPattern (l.drop i) = none) : searchPattern l = none := by
  induction l with
  | nil => rfl
  | cons c tl ih =>
    rw [searchPattern_cons]
    have h0 := h 0
    rw [List.drop_zero] at h0
    rw [h0]
    exact ih fun i => by simpa using h (i + 1)

/-- The search returns the match at the leftmost matching position. -/
theorem searchPattern_leftmost (l : List Char) (i v : Nat)
    (hm : matchPattern (l.drop i) = some v)
    (hmin : ∀ j, j < i → matchPattern (l.drop j) = none) :
    searchPattern l = some v := by
  induction l generalizing i with
  | nil =>
    rw [List.drop_nil] at hm
    rw [matchPattern_nil] at hm
    exact absurd hm (by simp)
  | cons c tl ih =>
    cases i with
    | zero =>
      rw [List.drop_zero] at hm
      rw [searchPattern_cons, hm]
    | succ i' =>
      have h0 := hmin 0 (Nat.succ_pos i')
      rw [List.drop_zero] at h0
      rw [searchPattern_cons, h0]
      exact ih i' (by simpa using hm)
        fun j hj => by simpa using hmin (j + 1) (Nat.succ_lt_succ hj)

/-- Anchored match after the concrete text `Honesty score: `: the phrase and
the colon separator are consumed, leaving the optional `of` and the digit
capture against the remaining text. -/
theorem matchPattern_header (tl : List Char) :
    matchPattern ("Honesty score: ".data ++ tl) =
      (let r4 := tl.dropWhile isPySpace
       let r5 := match matchCI ['o', 'f'] r4 with
                 | some r => r.dropWhile isPySpace
                 | none => r4
       let ds := (r5.takeWhile isPyDigit).take 3
       if ds.isEmpty then none else some (digitsVal ds)) := rfl

theorem matchCI_cons (p : Char) (ps : List Char) (c : Char) (cs : List Char) :
    matchCI (p :: ps) (c :: cs) =
      if c.toLower = p then matchCI ps cs else none := rfl

/-! ## Facts about ASCII digit characters -/

theorem digit_toNat (c : Char) (h : isPyDigit c = true) :
    48 ≤ c.toNat ∧ c.toNat ≤ 57 := by
  simp [isPyDigit] at h
  obtain ⟨h1, h2⟩ := h
  rw [Char.le_def] at h1 h2
  rw [UInt32.le_def] at h1 h2
  rw [BitVec.le_def] at h1 h2
  exact ⟨h1, h2⟩

theorem digit_not_space (c : Char) (h : isPyDigit c = true) :
    isPySpace c = false := by
  have hb := digit_toNat c h
  simp [isPySpace]
  repeat' apply And.intro
  all_goals rintro rfl
  all_goals exact absurd hb (by decide)

theorem digit_not_sep (c : Char) (h : isPyDigit c = true) :
    isSepChar c = false := by
  have hb := digit_toNat c h
  simp [isSepChar]
  repeat' apply And.intro
  all_goals rintro rfl
  all_goals exact absurd hb (by decide)

theorem digit_toLower (c : Char) (h : isPyDigit c = true) : c.toLower = c := by
  have hb := digit_toNat c h
  unfold Char.toLower
  rw [if_neg]
  omega

theorem digit_toLower_ne_o (c : Char) (h : isPyDigit c = true) :
    ¬ (c.toLower = 'o') := by
  rw [digit_toLower c h]
  rintro rfl
  simp [isPyDigit] at h

/-! ## Claims about `extract_score` -/

/-- C1: for every integer n in [0,100], `extract_score` applied to the text
`Honesty score: {n}` returns exactly n; this holds with separator `:`, `-`,
`*`, the word ` of `, or no separator at all between the phrase and the
digits, and holds regardless of the letter case of the phrase
`honesty score`. -/
theorem c1_extract_score_valid : ∀ n : Nat, n ≤ 100 →
    extract_score ("Honesty score: " ++ Nat.repr n) = some n ∧
    extract_score ("Honesty score - " ++ Nat.repr n) = some n ∧
    extract_score ("**Honesty Score:** " ++ Nat.repr n) = some n ∧
    extract_score ("honesty score of " ++ Nat.repr n) = some n ∧
    extract_score ("Honesty score " ++ Nat.repr n) = some n ∧
    extract_score ("HONESTY SCORE: " ++ Nat.repr n) = some n := by decide

theorem c1_extract_score_valid_witness :
    extract_score ("Honesty score: " ++ Nat.repr 95) = some 95 ∧
    extract_score ("Honesty score - " ++ Nat.repr 95) = some 95 ∧
    extract_score ("**Honesty Score:** " ++ Nat.repr 95) = some 95 ∧
    extract_score ("honesty score of " ++ Nat.repr 95) = some 95 ∧
    extract_score ("Honesty score " ++ Nat.repr 95) = some 95 ∧
    extract_score ("HONESTY SCORE: " ++ Nat.repr 95) = some 95 :=
  c1_extract_score_valid 95 (by decide)

/-- C2 counterexample: the claim fails as stated.  In `Honesty score -10`
the minus sign is consumed by the separator class `[:\-\*]*`, so the code
returns 10 rather than None; and in `Honesty score: 1000` the stated
integer 1000 exceeds 100, yet the capture `\d{1,3}` takes only its first
three digits `100`, which pass the range check, so the code returns 100
rather than None. -/
theorem c2_counterexample :
    extract_score "Honesty score -10" = some 10 ∧
    extract_score "Honesty score: 1000" = some 100 := by decide

/-- C2 amended: a stated integer greater than 100 yields None when its
decimal form has at most three digits (101 ≤ n ≤ 999); `Honesty score: -10`
yields None (after the colon, the minus sign blocks the digit capture).
However, when the minus sign immediately follows the phrase with no other
separator, it is parsed as a dash separator (`Honesty score -10` yields 10),
and when the stated integer has four or more digits only its first three
digits are captured (`Honesty score: 1000` yields 100). -/
theorem c2_amended :
    (∀ n : Nat, n ≤ 999 → 100 < n →
      extract_score ("Honesty score: " ++ Nat.repr n) = none) ∧
    extract_score "Honesty score: -10" = none ∧
    extract_score "Honesty score -10" = some 10 ∧
    extract_score "Honesty score: 1000" = some 100 := by decide

theorem c2_amended_witness :
    extract_score ("Honesty score: " ++ Nat.repr 150) = none :=
  c2_amended.1 150 (by decide) (by decide)

/-- C3: `extract_score` applied to `Honesty score: 75.5` returns 75: the
capture matches only the leading integer digits, and the fractional part
immediately following the captured digits is ignored. -/
theorem c3_extract_score_decimal :
    extract_score "Honesty score: 75.5" = some 75 := by decide

/-- C4: when the pattern (the phrase `honesty score`, case-insensitively,
followed by an allowed separator and 1-3 digits) matches at no position of
the text, `extract_score` returns None regardless of any other numeric
tokens; when it matches somewhere, the leftmost match determines the
result, digit sequences elsewhere being ignored. -/
theorem c4_leftmost_match_decides (s : String) :
    ((∀ i, i < s.data.length → matchPattern (s.data.drop i) = none) →
      extract_score s = none) ∧
    (∀ i v, matchPattern (s.data.drop i) = some v →
      (∀ j, j < i → matchPattern (s.data.drop j) = none) →
      extract_score s = if v ≤ 100 then some v else none) := by
  constructor
  · intro h
    have hs : searchPattern s.data = none := by
      apply searchPattern_eq_none
      intro i
      by_cases hi : i < s.data.length
      · exact h i hi
      · rw [List.drop_eq_nil_of_le (Nat.le_of_not_lt hi)]
        exact matchPattern_nil
    unfold extract_score
    rw [hs]
  · intro i v hm hmin
    unfold extract_score
    rw [searchPattern_leftmost s.data i v hm hmin]

theorem c4_leftmost_match_decides_witness :
    extract_score "This text has no score in it, only 42 and 123." = none ∧
    extract_score "The honesty score: 85 and 99 others" =
      if 85 ≤ 100 then some 85 else none :=
  ⟨(c4_leftmost_match_decides "This text has no score in it, only 42 and 123.").1
    (by decide),
   (c4_leftmost_match_decides "The honesty score: 85 and 99 others").2 4 85
    (by decide) (by decide)⟩

/-- C10: when the digits following the phrase form a run longer than three
digits, `extract_score` captures only the first three digits and accepts
them when they are in [0,100]; in particular on `Honesty score: 1000` it
returns 100 rather than None. -/
theorem c10_digit_run_truncation :
    (∀ (d1 d2 d3 d4 : Char) (ds : List Char),
      isPyDigit d1 = true → isPyDigit d2 = true →
      isPyDigit d3 = true → isPyDigit d4 = true →
      extract_score ⟨"Honesty score: ".data ++ d1 :: d2 :: d3 :: d4 :: ds⟩ =
        if digitsVal [d1, d2, d3] ≤ 100 then some (digitsVal [d1, d2, d3])
        else none) ∧
    extract_score "Honesty score: 1000" = some 100 := by
  constructor
  · intro d1 d2 d3 d4 ds h1 h2 h3 _h4
    have hnosp : (d1 :: d2 :: d3 :: d4 :: ds).dropWhile isPySpace =
        d1 :: d2 :: d3 :: d4 :: ds := by
      rw [List.dropWhile_cons, digit_not_space d1 h1]
      simp
    have hof : matchCI ['o', 'f'] (d1 :: d2 :: d3 :: d4 :: ds) = none := by
      rw [matchCI_cons, if_neg (digit_toLower_ne_o d1 h1)]
    have htw : (d1 :: d2 :: d3 :: d4 :: ds).takeWhile isPyDigit =
        d1 :: d2 :: d3 :: ((d4 :: ds).takeWhile isPyDigit) := by
      rw [List.takeWhile_cons, h1, List.takeWhile_cons, h2, List.takeWhile_cons, h3]
      simp
    have hmatch : matchPattern ("Honesty score: ".data ++ d1 :: d2 :: d3 :: d4 :: ds) =
        some (digitsVal [d1, d2, d3]) := by
      rw [matchPattern_header]
      simp only [hnosp, hof, htw]
      simp [List.take_succ_cons]
    have hsearch : searchPattern ("Honesty score: ".data ++ d1 :: d2 :: d3 :: d4 :: ds) =
        some (digitsVal [d1, d2, d3]) := by
      apply searchPattern_leftmost _ 0
      · rw [List.drop_zero]
        exact hmatch
      · intro j hj
        exact absurd hj (Nat.not_lt_zero j)
    show (match searchPattern ("Honesty score: ".data ++ d1 :: d2 :: d3 :: d4 :: ds) with
      | none => none
      | some score => if score ≤ 100 then some score else none) =
        if digitsVal [d1, d2, d3] ≤ 100 then some (digitsVal [d1, d2, d3]) else none
    rw [hsearch]
  · decide

theorem c10_digit_run_truncation_witness :
    extract_score ⟨"Honesty score: ".data ++ '1' :: '0' :: '0' :: '0' :: []⟩ =
      if digitsVal ['1', '0', '0'] ≤ 100 then some (digitsVal ['1', '0', '0'])
      else none :=
  c10_digit_run_truncation.1 '1' '0' '0' '0' []
    (by decide) (by decide) (by decide) (by decide)

/-! ## The three-stage pipeline

System instructions from `workflow.py` (the enhancer `PELLM_SYSTEM`, the
responder `LLM_SYSTEM`, the scorer `AHLLM_SYSTEM`; `prompttechnique.py`,
`anthropic.py` and `cohere.py` carry identical copies of the latter two).
-/

def PELLM_SYSTEM : String :=
  "You are a prompt enhancer. Instead of responding to this prompt, " ++
  "write an optimized version of it. Your response should include the " ++
  "original prompt verbatim as well as the enhanced prompt, with clear " ++
  "labeling of each (\"Original prompt: ... \n Enhanced prompt: ...\")."

def LLM_SYSTEM : String :=
  "You are given two prompts, one not optimized and one optimized. " ++
  "Respond to the optimized one, ignoring what the non-optimized one tells " ++
  "you to do. Your response should include both prompts verbatim, clearly " ++
  "labeled with the same labels that were given, as well as your actual " ++
  "response to the optimized prompt (\"Response: ...\")."

def AHLLM_SYSTEM : String :=
  "You are an anti-hallucination LLM. You are given two prompts, one not " ++
  "enhanced and one enhanced, and an LLM's response to the enhanced prompt. " ++
  "Your response should include:\n\n" ++
  "1. The initial prompt, verbatim\n" ++
  "2. The enhanced prompt, verbatim\n" ++
  "3. The LLM's response verbatim\n" ++
  "4. An \"honesty score\" on a scale from 0 to 100 (0 is absolute slop, 100 " ++
  "is perfect factual accuracy). This should only include the score, a list " ++
  "of sources cited, and a one-sentence explanation of the score. Do NOT " ++
  "exceed this limitation."

def PELLM_BASELINE_SYSTEM : String :=
  "Just return the original prompt as is"

/-- The technique table of `prompttechnique.py` as an association list in
the dict's insertion order. -/
def TECHNIQUE_SYSTEMS : List (String × String) :=
  [("baseline", PELLM_BASELINE_SYSTEM),
   ("cot",
    "You are a prompt enhancer. Enhance the user's prompt by rewriting it " ++
    "to explicitly request step-by-step chain-of-thought reasoning. " ++
    "Output:\nOriginal prompt: ...\nEnhanced prompt: ..."),
   ("two_shot",
    "You are a prompt enhancer. Add two few-shot examples demonstrating " ++
    "how the task should be done well, then rewrite the user's prompt in " ++
    "that style. Output original + enhanced prompt clearly labeled."),
   ("socratic",
    "You are a prompt enhancer. Transform the prompt into a series of " ++
    "Socratic questions designed to guide correct reasoning. Output " ++
    "original + enhanced."),
   ("precision",
    "You are a prompt enhancer. Rewrite the prompt to enforce factual " ++
    "precision, discourage hallucinations, and require citations. " ++
    "Output original + enhanced.")]

/-- The prompt-set table of `prompttechnique.py` as an association list in
the dict's insertion order. -/
def PROMPT_SETS : List (String × List String) :=
  [("obscure_history",
    ["Summarize the role of General Hartmann in the Baltic Reorganization Act of 1764.",
     "Explain the consequences of the 1823 Vinberg Maritime Trade Reforms."]),
   ("fictional_science",
    ["Describe the Moreschi Convergence Hypothesis in anthropology.",
     "Explain Perelman's 1991 Continuity Mapping Theorem and its applications."]),
   ("recent_research",
    ["Summarize the findings of the January 2025 DARPA BioCompute paper on synthetic neurons.",
     "Explain the experimental results reported in the 2024 LHC forward-detector neutrino dataset."])]

/-- The composite scorer-stage input assembled by `workflow_once` and
`run_workflow` (the same f-string in both): the original user prompt, the
enhanced bundle and the response bundle, each under its fixed header. -/
def ahInput (user_prompt enhanced_bundle llm_response_bundle : String) : String :=
  "Original prompt (user input):\n" ++ user_prompt ++
  "\n\nEnhanced prompt bundle (from PELLM):\n" ++ enhanced_bundle ++
  "\n\nLLM response bundle (from LLM node):\n" ++ llm_response_bundle ++ "\n"

/-- The dict returned by `workflow_once` of `prompttechnique.py`. -/
structure WorkflowOut where
  enhanced : String
  llm_response : String
  ah_eval : String
deriving DecidableEq

/-- `workflow_once` of `prompttechnique.py`, with the chat capability
`call_llm` (system prompt, user content to generated text) injected as the
parameter `llm`, as the repository's tests do by patching `call_llm`. -/
def workflow_once (llm : String → String → String)
    (user_prompt pel_system_prompt : String) : WorkflowOut :=
  let enhanced_bundle := llm pel_system_prompt user_prompt
  let llm_response_bundle := llm LLM_SYSTEM enhanced_bundle
  let ah_output := llm AHLLM_SYSTEM
    (ahInput user_prompt enhanced_bundle llm_response_bundle)
  { enhanced := enhanced_bundle,
    llm_response := llm_response_bundle,
    ah_eval := ah_output }

/-- The (system prompt, user content) arguments of the three `call_llm`
invocations performed by `workflow_once`, in call order. -/
def workflow_once_calls (llm : String → String → String)
    (user_prompt pel_system_prompt : String) : List (String × String) :=
  let enhanced_bundle := llm pel_system_prompt user_prompt
  let llm_response_bundle := llm LLM_SYSTEM enhanced_bundle
  [(pel_system_prompt, user_prompt),
   (LLM_SYSTEM, enhanced_bundle),
   (AHLLM_SYSTEM, ahInput user_prompt enhanced_bundle llm_response_bundle)]

/-- `run_workflow` of `workflow.py`: the same three-stage chain with the
fixed enhancer instruction, returning the scorer stage's text. -/
def run_workflow (llm : String → String → String) (user_prompt : String) : String :=
  let enhanced_bundle := llm PELLM_SYSTEM user_prompt
  let llm_response_bundle := llm LLM_SYSTEM enhanced_bundle
  llm AHLLM_SYSTEM (ahInput user_prompt enhanced_bundle llm_response_bundle)

/-- The failure sentinel string asserted by `test_gpt_5.py`. -/
def FAILURE_SENTINEL : String :=
  "Error occurred. Please try again or change your prompt slightly before trying again."

/-- Modelled from the spec: the module `gpt_5.py` (whose `invoke_gpt_5` is
imported by `server.py` and exercised by `test_gpt_5.py`) is not among the
provided sources.  Per the spec's failure semantics, the pipeline makes the
three stage calls in order and, if the completion capability fails at any
stage, does not retry, makes no further calls, surfaces no partial stage
output, and returns the single fixed failure sentinel (the string asserted
by `test_gpt_5.py`).  The capability is modelled as an `Option`-returning
function (`none` = the provider raised), and the result is paired with the
list of calls made, in order, so that call counting is expressible. -/
def invoke_gpt_5 (llm : String → String → Option String)
    (user_prompt : String) : String × List (String × String) :=
  match llm PELLM_SYSTEM user_prompt with
  | none => (FAILURE_SENTINEL, [(PELLM_SYSTEM, user_prompt)])
  | some enhanced_bundle =>
    match llm LLM_SYSTEM enhanced_bundle with
    | none => (FAILURE_SENTINEL,
        [(PELLM_SYSTEM, user_prompt), (LLM_SYSTEM, enhanced_bundle)])
    | some llm_response_bundle =>
      let ah_input := ahInput user_prompt enhanced_bundle llm_response_bundle
      match llm AHLLM_SYSTEM ah_input with
      | none => (FAILURE_SENTINEL,
          [(PELLM_SYSTEM, user_prompt), (LLM_SYSTEM, enhanced_bundle),
           (AHLLM_SYSTEM, ah_input)])
      | some ah_output => (ah_output,
          [(PELLM_SYSTEM, user_prompt), (LLM_SYSTEM, enhanced_bundle),
           (AHLLM_SYSTEM, ah_input)])

/-! ## The experiment harness -/

/-- One record appended by `run_experiment` of `prompttechnique.py`. -/
structure ExperimentRecord where
  domain : String
  prompt : String
  technique : String
  score : Option Nat
  enhanced : String
  llm_response : String
  ah_eval : String
deriving DecidableEq

/-- `run_experiment` of `prompttechnique.py`: the nested loops over the
prompt-set table, each domain's prompt list, and the technique table, with
the chat capability and the two read-only tables injected as parameters. -/
def run_experiment (llm : String → String → String)
    (promptSets : List (String × List String))
    (techniqueSystems : List (String × String)) : List ExperimentRecord :=
  promptSets.flatMap fun dp =>
    dp.2.flatMap fun prompt =>
      techniqueSystems.map fun ts =>
        let out := workflow_once llm prompt ts.2
        { domain := dp.1, prompt := prompt, technique := ts.1,
          score := extract_score out.ah_eval,
          enhanced := out.enhanced, llm_response := out.llm_response,
          ah_eval := out.ah_eval }

/-- The bucket keys built by `summarize`'s `setdefault` loop: technique
names in order of first appearance. -/
def techniqueKeys (results : List ExperimentRecord) : List String :=
  results.foldl
    (fun acc r => if r.technique ∈ acc then acc else acc ++ [r.technique]) []

/-- One technique's bucket: the scores of its records, in list order. -/
def techScores (results : List ExperimentRecord) (tech : String) :
    List (Option Nat) :=
  (results.filter fun r => r.technique = tech).map fun r => r.score

/-- `summarize` of `prompttechnique.py`: group scores by technique, drop
the absent (`None`) scores, and report `sum(valid)/len(valid)` per
technique, or `no valid scores` (modelled as `none`) when a technique has
no valid score.  Python's float mean is modelled as the exact rational. -/
def summarize (results : List ExperimentRecord) : List (String × Option ℚ) :=
  (techniqueKeys results).map fun tech =>
    let valid := (techScores results tech).filterMap id
    (tech,
     if valid.isEmpty then none
     else some (((valid.map fun n => (n : ℚ)).sum) / (valid.length : ℚ)))

/-! ## The HTTP surface -/

/-- The `/llm` request handler of `server.py`, with the three provider
pipelines injected as parameters; the returned string is the `response`
field of the JSON body of the 200 response the handler produces. -/
def llm_route (gpt5 claude cohereChat : String → String)
    (model user_prompt : String) : String :=
  if model = "gpt-5" then gpt5 user_prompt
  else if model = "claude-4-5-sonnet" then claude user_prompt
  else if model = "cohere" then cohereChat user_prompt
  else ""

/-- `big` contains `small` verbatim as a contiguous substring. -/
def containsStr (big small : String) : Prop :=
  ∃ a b : List Char, big.data = a ++ (small.data ++ b)

/-! ## Claims about the pipeline, the harness and the HTTP surface -/

/-- C5: if the completion capability fails at any of the three stage calls,
the pipeline run returns the single fixed failure sentinel (a string from
which `extract_score` extracts nothing, so it is distinguishable from a
legitimate score-bearing text), makes no further capability calls after the
failing one, and surfaces no partial stage outputs. -/
theorem c5_failure_sentinel (llm : String → String → Option String)
    (p : String) :
    (llm PELLM_SYSTEM p = none →
      invoke_gpt_5 llm p = (FAILURE_SENTINEL, [(PELLM_SYSTEM, p)])) ∧
    (∀ e, llm PELLM_SYSTEM p = some e → llm LLM_SYSTEM e = none →
      invoke_gpt_5 llm p =
        (FAILURE_SENTINEL, [(PELLM_SYSTEM, p), (LLM_SYSTEM, e)])) ∧
    (∀ e r, llm PELLM_SYSTEM p = some e → llm LLM_SYSTEM e = some r →
      llm AHLLM_SYSTEM (ahInput p e r) = none →
      invoke_gpt_5 llm p =
        (FAILURE_SENTINEL, [(PELLM_SYSTEM, p), (LLM_SYSTEM, e),
          (AHLLM_SYSTEM, ahInput p e r)])) ∧
    extract_score FAILURE_SENTINEL = none := by
  refine ⟨?_, ?_, ?_, ?_⟩
  · intro h1
    unfold invoke_gpt_5
    rw [h1]
  · intro e h1 h2
    simp only [invoke_gpt_5, h1, h2]
  · intro e r h1 h2 h3
    simp only [invoke_gpt_5, h1, h2, h3]
  · decide

theorem c5_failure_sentinel_witness :
    invoke_gpt_5 (fun _ _ => none) "test" =
      (FAILURE_SENTINEL, [(PELLM_SYSTEM, "test")]) :=
  (c5_failure_sentinel (fun _ _ => none) "test").1 rfl

/-- C6: for every user prompt and deterministic always-succeeding
completion capability, one pipeline run invokes the capability exactly
three times in order (enhancer instruction first, fixed responder
instruction second, fixed scorer instruction third), and the third call's
user content contains the original user prompt, the first call's output and
the second call's output verbatim under their labeled sections; the
returned record carries exactly the three stage outputs, and `run_workflow`
is the same chain with the fixed enhancer instruction. -/
theorem c6_three_calls_in_order (llm : String → String → String)
    (user_prompt pel_system_prompt : String) :
    (workflow_once_calls llm user_prompt pel_system_prompt).length = 3 ∧
    workflow_once_calls llm user_prompt pel_system_prompt =
      [(pel_system_prompt, user_prompt),
       (LLM_SYSTEM, llm pel_system_prompt user_prompt),
       (AHLLM_SYSTEM,
        ahInput user_prompt (llm pel_system_prompt user_prompt)
          (llm LLM_SYSTEM (llm pel_system_prompt user_prompt)))] ∧
    containsStr
      (ahInput user_prompt (llm pel_system_prompt user_prompt)
        (llm LLM_SYSTEM (llm pel_system_prompt user_prompt))) user_prompt ∧
    containsStr
      (ahInput user_prompt (llm pel_system_prompt user_prompt)
        (llm LLM_SYSTEM (llm pel_system_prompt user_prompt)))
      (llm pel_system_prompt user_prompt) ∧
    containsStr
      (ahInput user_prompt (llm pel_system_prompt user_prompt)
        (llm LLM_SYSTEM (llm pel_system_prompt user_prompt)))
      (llm LLM_SYSTEM (llm pel_system_prompt user_prompt)) ∧
    workflow_once llm user_prompt pel_system_prompt =
      { enhanced := llm pel_system_prompt user_prompt,
        llm_response := llm LLM_SYSTEM (llm pel_system_prompt user_prompt),
        ah_eval := llm AHLLM_SYSTEM
          (ahInput user_prompt (llm pel_system_prompt user_prompt)
            (llm LLM_SYSTEM (llm pel_system_prompt user_prompt))) } ∧
    run_workflow llm user_prompt =
      (workflow_once llm user_prompt PELLM_SYSTEM).ah_eval := by
  refine ⟨rfl, rfl, ?_, ?_, ?_, rfl, rfl⟩
  · exact ⟨"Original prompt (user input):\n".data,
      ("\n\nEnhanced prompt bundle (from PELLM):\n" ++
        llm pel_system_prompt user_prompt ++
        "\n\nLLM response bundle (from LLM node):\n" ++
        llm LLM_SYSTEM (llm pel_system_prompt user_prompt) ++ "\n").data,
      by simp [ahInput, containsStr, String.data_append]⟩
  · exact ⟨("Original prompt (user input):\n" ++ user_prompt ++
        "\n\nEnhanced prompt bundle (from PELLM):\n").data,
      ("\n\nLLM response bundle (from LLM node):\n" ++
        llm LLM_SYSTEM (llm pel_system_prompt user_prompt) ++ "\n").data,
      by simp [ahInput, containsStr, String.data_append]⟩
  · exact ⟨("Original prompt (user input):\n" ++ user_prompt ++
        "\n\nEnhanced prompt bundle (from PELLM):\n" ++
        llm pel_system_prompt user_prompt ++
        "\n\nLLM response bundle (from LLM node):\n").data,
      "\n".data,
      by simp [ahInput, containsStr, String.data_append]⟩

/-- C7: over any prompt-set table whose domains each hold at least one
prompt and any technique table, `run_experiment` produces exactly
T·ΣPᵢ records in the nested iteration order domain, then prompt, then
technique; it covers every (domain, technique) pair, and every record's
score is the extraction from its own scorer-stage text. -/
theorem c7_run_experiment_cross_product (llm : String → String → String)
    (promptSets : List (String × List String))
    (techniqueSystems : List (String × String))
    (h : ∀ dp ∈ promptSets, dp.2 ≠ []) :
    (run_experiment llm promptSets techniqueSystems).map
        (fun r => (r.domain, r.prompt, r.technique)) =
      (promptSets.flatMap fun dp => dp.2.flatMap fun prompt =>
        techniqueSystems.map fun ts => (dp.1, prompt, ts.1)) ∧
    (run_experiment llm promptSets techniqueSystems).length =
      (promptSets.map fun dp => dp.2.length).sum * techniqueSystems.length ∧
    (∀ dp ∈ promptSets, ∀ ts ∈ techniqueSystems,
      ∃ r ∈ run_experiment llm promptSets techniqueSystems,
        r.domain = dp.1 ∧ r.technique = ts.1) ∧
    (∀ r ∈ run_experiment llm promptSets techniqueSystems,
      r.score = extract_score r.ah_eval) := by
  refine ⟨?_, ?_, ?_, ?_⟩
  · simp [run_experiment, List.map_flatMap, List.map_map, Function.comp_def]
  · simp only [run_experiment, List.length_flatMap, List.map_map,
      Function.comp_def, List.length_map]
    simp only [List.map_const', List.sum_replicate, smul_eq_mul]
    exact List.sum_map_mul_right promptSets (fun dp => dp.2.length)
      techniqueSystems.length
  · intro dp hdp ts hts
    obtain ⟨p, hp⟩ := List.exists_mem_of_ne_nil dp.2 (h dp hdp)
    exact ⟨_, List.mem_flatMap.mpr ⟨dp, hdp,
      List.mem_flatMap.mpr ⟨p, hp, List.mem_map_of_mem _ hts⟩⟩, rfl, rfl⟩
  · intro r hr
    simp only [run_experiment, List.mem_flatMap, List.mem_map] at hr
    obtain ⟨dp, _, p, _, ts, _, rfl⟩ := hr
    rfl

/-- A deterministic stand-in completion capability for witnesses. -/
def fakeLlm : String → String → String :=
  fun _ _ => "Honesty score: 80"

theorem c7_run_experiment_cross_product_witness :
    (run_experiment fakeLlm PROMPT_SETS TECHNIQUE_SYSTEMS).map
        (fun r => (r.domain, r.prompt, r.technique)) =
      (PROMPT_SETS.flatMap fun dp => dp.2.flatMap fun prompt =>
        TECHNIQUE_SYSTEMS.map fun ts => (dp.1, prompt, ts.1)) ∧
    (run_experiment fakeLlm PROMPT_SETS TECHNIQUE_SYSTEMS).length =
      (PROMPT_SETS.map fun dp => dp.2.length).sum * TECHNIQUE_SYSTEMS.length ∧
    (∀ dp ∈ PROMPT_SETS, ∀ ts ∈ TECHNIQUE_SYSTEMS,
      ∃ r ∈ run_experiment fakeLlm PROMPT_SETS TECHNIQUE_SYSTEMS,
        r.domain = dp.1 ∧ r.technique = ts.1) ∧
    (∀ r ∈ run_experiment fakeLlm PROMPT_SETS TECHNIQUE_SYSTEMS,
      r.score = extract_score r.ah_eval) :=
  c7_run_experiment_cross_product fakeLlm PROMPT_SETS TECHNIQUE_SYSTEMS
    (by decide)

theorem mem_techniqueKeys_aux (l : List ExperimentRecord) (acc : List String)
    (t : String) :
    t ∈ l.foldl
        (fun acc r => if r.technique ∈ acc then acc else acc ++ [r.technique])
        acc ↔
      t ∈ acc ∨ t ∈ l.map fun r => r.technique := by
  induction l generalizing acc with
  | nil => simp
  | cons r tl ih =>
    simp only [List.foldl_cons, List.map_cons, List.mem_cons]
    rw [ih]
    by_cases hmem : r.technique ∈ acc
    · rw [if_pos hmem]
      constructor
      · rintro (ht | ht)
        · exact Or.inl ht
        · exact Or.inr (Or.inr ht)
      · rintro (ht | rfl | ht)
        · exact Or.inl ht
        · exact Or.inl hmem
        · exact Or.inr ht
    · rw [if_neg hmem]
      simp only [List.mem_append, List.mem_singleton]
      tauto

/-- The buckets of `summarize` hold exactly the techniques occurring in the
result list. -/
theorem mem_techniqueKeys (results : List ExperimentRecord) (t : String) :
    t ∈ techniqueKeys results ↔ t ∈ results.map fun r => r.technique := by
  rw [techniqueKeys, mem_techniqueKeys_aux]
  simp

/-- C8: `summarize` groups results by technique; a technique all of whose
scores are absent is reported as `no valid scores` (modelled `none`), and a
technique with at least one non-absent score is reported as the arithmetic
mean of its non-absent scores, the absent ones excluded from both sum and
count. -/
theorem c8_summarize_mean (results : List ExperimentRecord) (tech : String)
    (h : tech ∈ results.map fun r => r.technique) :
    ((techScores results tech).filterMap id = [] →
      (tech, (none : Option ℚ)) ∈ summarize results) ∧
    ((techScores results tech).filterMap id ≠ [] →
      (tech, some (((((techScores results tech).filterMap id).map
          fun n => (n : ℚ)).sum) /
        (((techScores results tech).filterMap id).length : ℚ))) ∈
          summarize results) ∧
    (summarize results).map Prod.fst = techniqueKeys results ∧
    (∀ t, t ∈ techniqueKeys results ↔ t ∈ results.map fun r => r.technique) := by
  have htech : tech ∈ techniqueKeys results :=
    (mem_techniqueKeys results tech).mpr h
  refine ⟨?_, ?_, ?_, mem_techniqueKeys results⟩
  · intro hempty
    simp only [summarize]
    refine List.mem_map.mpr ⟨tech, htech, ?_⟩
    simp [hempty]
  · intro hne
    simp only [summarize]
    refine List.mem_map.mpr ⟨tech, htech, ?_⟩
    simp [List.isEmpty_iff, hne]
  · simp [summarize, List.map_map, Function.comp_def]

/-- A small concrete result list for the `summarize` witness: two `cot`
records (one scored, one absent) and one all-absent `baseline` record. -/
def sampleResults : List ExperimentRecord :=
  [{ domain := "test", prompt := "p1", technique := "cot", score := some 80,
     enhanced := "e1", llm_response := "r1", ah_eval := "Honesty score: 80" },
   { domain := "test", prompt := "p2", technique := "cot", score := none,
     enhanced := "e2", llm_response := "r2", ah_eval := "no score" },
   { domain := "test", prompt := "p3", technique := "baseline", score := none,
     enhanced := "e3", llm_response := "r3", ah_eval := "nothing" }]

theorem c8_summarize_mean_witness :
    (("cot", some (((((techScores sampleResults "cot").filterMap id).map
        fun n => (n : ℚ)).sum) /
      (((techScores sampleResults "cot").filterMap id).length : ℚ))) ∈
        summarize sampleResults) ∧
    (("baseline", (none : Option ℚ)) ∈ summarize sampleResults) :=
  ⟨(c8_summarize_mean sampleResults "cot" (by decide)).2.1 (by decide),
   (c8_summarize_mean sampleResults "baseline" (by decide)).1 (by decide)⟩

/-- C9: a request to the `/llm` endpoint whose model field is none of the
recognized names `gpt-5`, `claude-4-5-sonnet`, `cohere` gets a success
response whose response field is the empty string, not an error. -/
theorem c9_unknown_model_empty (gpt5 claude cohereChat : String → String)
    (model user_prompt : String)
    (h1 : model ≠ "gpt-5") (h2 : model ≠ "claude-4-5-sonnet")
    (h3 : model ≠ "cohere") :
    llm_route gpt5 claude cohereChat model user_prompt = "" := by
  unfold llm_route
  rw [if_neg h1, if_neg h2, if_neg h3]

theorem c9_unknown_model_empty_witness :
    llm_route (fun _ => "a") (fun _ => "b") (fun _ => "c") "gpt-4" "hi" = "" :=
  c9_unknown_model_empty _ _ _ "gpt-4" "hi" (by decide) (by decide) (by decide)
